import Mathlib

/-!
Shallow embedding of `returns/contrib/hypothesis/laws.py` (the algebraic-law
verification engine of the `returns` library) and proofs about it.

The module manipulates one piece of process-wide mutable state: the
`hypothesis` strategy lookup table `types._global_type_lookup`, a Python
dict keyed by types.  We embed that dict as an association list `Registry`
with Python dict semantics (assignment updates in place or appends, `pop`
removes), and embed each `@contextmanager` scope of the source as an explicit
registry transformation.  Crucially, the source context managers perform
their cleanup in straight-line code after `yield`, with no `try`/`finally`:
with `contextlib.contextmanager`, an exception raised in the scope body is
thrown into the generator at the `yield` point and propagates, so the lines
after `yield` never run.  The embedding therefore threads an explicit body
outcome (`BodyResult.ok` / `BodyResult.exn`) and runs the cleanup code only
on `BodyResult.ok`, exactly like the source.
-/

namespace LawsPy

/-- A Python class, identified the way `laws.py` observes classes:
its `__qualname__` and its `__module__`. -/
structure PyClass where
  qualname : String
  module : String
deriving DecidableEq, Repr

/-- Keys of the process-wide `types._global_type_lookup` dict, as used by
`laws.py`: ordinary classes, plus the special keys `typing.Callable`
(used by `pure_functions`) and `typing.TypeVar` (used by `type_vars`). -/
inductive TypeKey where
  | cls (c : PyClass)
  | callable
  | typeVar
deriving DecidableEq, Repr

/-- Values stored in the lookup table: the strategy factories that
`laws.py` registers, plus opaque pre-existing engine entries. -/
inductive StratVal where
  | containerFactory (container : PyClass) (use_init : Bool)
  | pureFnFactory
  | typeVarFactory
  | engineDefault (id : Nat)
deriving DecidableEq, Repr

/-- The process-wide `types._global_type_lookup` dict, as an association
list in insertion order (Python 3.7 dict semantics). -/
abbrev Registry := List (TypeKey × StratVal)

/-- Dict lookup: `types._global_type_lookup.get(key)`. -/
def lookupType : Registry → TypeKey → Option StratVal
  | [], _ => none
  | (k, v) :: rest, key => if k = key then some v else lookupType rest key

/-- `st.register_type_strategy(key, value)`, which performs
`_global_type_lookup[key] = value`: update in place if the key is present,
append otherwise. -/
def register_type_strategy (reg : Registry) (key : TypeKey) (v : StratVal) : Registry :=
  if (lookupType reg key).isSome then
    reg.map (fun kv => if kv.1 = key then (key, v) else kv)
  else
    reg ++ [(key, v)]

/-- `types._global_type_lookup.pop(key)`: remove the binding. -/
def popType (reg : Registry) (key : TypeKey) : Registry :=
  reg.filter (fun kv => kv.1 ≠ key)

/-- Outcome of a scope body: it either returns normally or raises. -/
inductive BodyResult where
  | ok
  | exn
deriving DecidableEq, Repr

/-- A scope body: code run under a `with` statement, reading and writing
the global lookup table and either returning normally or raising. -/
abbrev ScopeBody := Registry → Registry × BodyResult

/-- Everything `laws.py` introspects on a container type: its class
identity, its `__mro__`, whether `getattr(container_type, '__init__', None)`
is truthy, its `issubclass` relationships with `ApplicativeN`,
`result.ResultLikeN` and `maybe.MaybeLikeN`, and `container_type.laws()`
(a mapping from interface to the list of law names, in iteration order). -/
structure ContainerInfo where
  cls : PyClass
  mro : List PyClass
  hasInit : Bool
  applicative : Bool
  resultLike : Bool
  maybeLike : Bool
  laws : List (PyClass × List String)
deriving DecidableEq, Repr

/-- Python `str.startswith`. -/
def startswith (s pre : String) : Bool :=
  List.isPrefixOf pre.data s.data

/-- Python `str.lower` (ASCII case mapping, which covers the identifiers
the source lower-cases). -/
def pyLower (s : String) : String :=
  String.mk (s.data.map Char.toLower)

/-- The sub-strategies `_create_container_factory` can place into the
`st.one_of(...)` union, one per construction capability. -/
inductive SubStrategy where
  | buildsInit
  | buildsFromValue
  | buildsFromFailure
  | buildsFromOptional
deriving DecidableEq, Repr

/-- The list of sub-strategies assembled by the `factory` closure inside
`_create_container_factory`: `st.builds(container_type)` when `use_init`
and the type has an `__init__`; `st.builds(container_type.from_value)`
for `ApplicativeN` subclasses; `st.builds(container_type.from_failure)`
for `result.ResultLikeN` subclasses; `st.builds(container_type.from_optional)`
for `maybe.MaybeLikeN` subclasses.  The factory returns
`st.one_of(*strategies)` over exactly this list. -/
def create_container_factory (ct : ContainerInfo) (use_init : Bool) : List SubStrategy :=
  (if use_init && ct.hasInit then [SubStrategy.buildsInit] else []) ++
    (if ct.applicative then [SubStrategy.buildsFromValue] else []) ++
    (if ct.resultLike then [SubStrategy.buildsFromFailure] else []) ++
    (if ct.maybeLike then [SubStrategy.buildsFromOptional] else [])

/-- Drawing from `st.one_of(*strategies)`: the engine picks one branch of
the union; with zero branches no draw can succeed. -/
def one_of_draw (strategies : List SubStrategy) (choice : Nat) : Option SubStrategy :=
  strategies.get? choice

/-- The set comprehension in `container_strategies`:
classes in `container_type.__mro__` whose `__module__` starts with
`'returns.'`. -/
def our_interfaces (ct : ContainerInfo) : List PyClass :=
  ct.mro.filter (fun base_type => startswith base_type.module "returns.")

/-- The registration loop at the top of `container_strategies`: register
`_create_container_factory(container_type, use_init=...)` for every
interface in `our_interfaces`. -/
def register_interfaces (ct : ContainerInfo) (use_init : Bool) (reg : Registry) : Registry :=
  (our_interfaces ct).foldl
    (fun r i => register_type_strategy r (TypeKey.cls i)
      (StratVal.containerFactory ct.cls use_init))
    reg

/-- The pop loop after the `yield` of `container_strategies`. -/
def pop_interfaces (ct : ContainerInfo) (reg : Registry) : Registry :=
  (our_interfaces ct).foldl (fun r i => popType r (TypeKey.cls i)) reg

/-- Code before the `yield` of `maybe_register_container`: test
`container_type not in types._global_type_lookup`; if unknown, register the
container factory.  Returns the new table and the `unknown_container` flag. -/
def maybe_register_container_enter (ct : PyClass) (use_init : Bool) (reg : Registry) :
    Registry × Bool :=
  if (lookupType reg (TypeKey.cls ct)).isNone then
    (register_type_strategy reg (TypeKey.cls ct) (StratVal.containerFactory ct use_init), true)
  else
    (reg, false)

/-- The whole `with maybe_register_container(...)` statement: enter, run the
body, and pop the container on exit only when this scope registered it —
and only on normal exit, since the cleanup after `yield` is not in a
`try`/`finally`. -/
def maybe_register_container_run (ct : PyClass) (use_init : Bool) (body : ScopeBody)
    (reg : Registry) : Registry × BodyResult :=
  let s := maybe_register_container_enter ct use_init reg
  let r := body s.1
  match r.2 with
  | BodyResult.ok => (if s.2 then popType r.1 (TypeKey.cls ct) else r.1, BodyResult.ok)
  | BodyResult.exn => (r.1, BodyResult.exn)

/-- The whole `with container_strategies(...)` statement: register a factory
for every `returns.`-defined class in the MRO, run the body inside a nested
`maybe_register_container` scope, and pop those interfaces on exit — again
only on normal exit, the cleanup not being protected by `try`/`finally`. -/
def container_strategies_run (ct : ContainerInfo) (use_init : Bool) (body : ScopeBody)
    (reg : Registry) : Registry × BodyResult :=
  let reg1 := register_interfaces ct use_init reg
  let r := maybe_register_container_run ct.cls use_init body reg1
  match r.2 with
  | BodyResult.ok => (pop_interfaces ct r.1, BodyResult.ok)
  | BodyResult.exn => (r.1, BodyResult.exn)

/-- The whole `with pure_functions()` statement: read the previous
`Callable` strategy (`used`), overwrite the `Callable` binding with the pure
function factory, run the body, and on normal exit pop the binding and
re-register `used`.  If `Callable` is absent the initial subscript raises
`KeyError`. -/
def pure_functions_run (body : ScopeBody) (reg : Registry) : Registry × BodyResult :=
  match lookupType reg TypeKey.callable with
  | none => (reg, BodyResult.exn)
  | some used =>
    let reg1 := register_type_strategy reg TypeKey.callable StratVal.pureFnFactory
    let r := body reg1
    match r.2 with
    | BodyResult.ok =>
      (register_type_strategy (popType r.1 TypeKey.callable) TypeKey.callable used,
        BodyResult.ok)
    | BodyResult.exn => (r.1, BodyResult.exn)

/-- The whole `with type_vars()` statement, structured exactly like
`pure_functions` but on the `TypeVar` key. -/
def type_vars_run (body : ScopeBody) (reg : Registry) : Registry × BodyResult :=
  match lookupType reg TypeKey.typeVar with
  | none => (reg, BodyResult.exn)
  | some used =>
    let reg1 := register_type_strategy reg TypeKey.typeVar StratVal.typeVarFactory
    let r := body reg1
    match r.2 with
    | BodyResult.ok =>
      (register_type_strategy (popType r.1 TypeKey.typeVar) TypeKey.typeVar used,
        BodyResult.ok)
    | BodyResult.exn => (r.1, BodyResult.exn)

/-- The `test_{container}_{interface}_{name}` template of
`_create_law_test_case`: `container_type.__qualname__.lower()` and
`interface.__qualname__.lower()` are filled in lower-cased, `law.name` is
filled in verbatim. -/
def law_test_case_name (ct interface : PyClass) (lawName : String) : String :=
  "test_" ++ pyLower ct.qualname ++ "_" ++ pyLower interface.qualname ++ "_" ++ lawName

/-- The double loop of `check_all_laws`: for every interface in
`container_type.laws()` and every law under it, `_create_law_test_case`
publishes one named test artifact via `setattr` on the calling module.
We record the sequence of published names. -/
def check_all_laws (ct : ContainerInfo) : List String :=
  ct.laws.foldl
    (fun acc p => p.2.foldl (fun acc2 lawName => acc2 ++ [law_test_case_name ct.cls p.1 lawName]) acc)
    []

/-- `_pyversion < (3, 7)`: lexicographic comparison of the
`sys.version_info[:2]` pair against `(3, 7)`. -/
def pyversion_lt_3_7 (pyversion : Nat × Nat) : Bool :=
  pyversion.1 < 3 || (pyversion.1 == 3 && pyversion.2 < 7)

/-- The message of the `RuntimeError` raised by `_run_law`'s factory on an
old interpreter. -/
def py36_error_message : String :=
  "Hypothesis does not support several important " ++
    "typing features on python3.6, and earlier versions. " ++
    "Please update to at least python3.7"

/-- The `factory` closure produced by `_run_law`: first the interpreter
version guard, raising `RuntimeError` before any scope is entered; then the
nested scopes `type_vars` / `pure_functions` / `container_strategies`
around the draw of `st.builds(law.definition)` (the draw is the innermost
scope body and may itself raise, e.g. a failing law assertion). -/
def run_law_factory (pyversion : Nat × Nat) (ct : ContainerInfo) (use_init : Bool)
    (draw : ScopeBody) (reg : Registry) : Registry × Except String BodyResult :=
  if pyversion_lt_3_7 pyversion then
    (reg, Except.error py36_error_message)
  else
    let r := type_vars_run
      (fun r1 => pure_functions_run
        (fun r2 => container_strategies_run ct use_init draw r2) r1)
      reg
    (r.1, Except.ok r.2)

/-- Python runtime values, with enough structure to express non-reflexive
equality: `float('nan')` is the value with `nan == nan` being `False`. -/
inductive PyVal where
  | intVal (n : Int)
  | strVal (s : String)
  | nan
deriving DecidableEq, Repr

/-- Python `==` on these values: structural on numbers and strings, and
never true on `nan` (IEEE semantics). -/
def pyEq : PyVal → PyVal → Bool
  | PyVal.nan, _ => false
  | _, PyVal.nan => false
  | PyVal.intVal a, PyVal.intVal b => a == b
  | PyVal.strVal a, PyVal.strVal b => a == b
  | _, _ => false

/-- The value space of the strategy built by the `factory` closure inside
`type_vars`: `st.one_of([types.resolve_TypeVar(thing)])` — the union of the
single default engine resolution — filtered by
`lambda inner: inner == inner`.  Strategies are modelled by their value
support; the support of a union is the join of the branch supports. -/
def type_vars_factory (resolve_TypeVar_support : List PyVal) : List PyVal :=
  (List.flatten [resolve_TypeVar_support]).filter (fun inner => pyEq inner inner)

/-- The shape of the `like` callable chosen by the `factory` closure inside
`pure_functions`: `lambda: None` (a zero-argument callable) when
`len(thing.__args__) == 1`, otherwise `lambda *args, **kwargs: None`
(a variadic callable). -/
inductive LikeShape where
  | zeroArg
  | variadic
deriving DecidableEq, Repr

/-- `like = (lambda: None) if len(thing.__args__) == 1 else (lambda *args, **kwargs: None)`. -/
def pure_functions_like (typeArgs : List TypeKey) : LikeShape :=
  if typeArgs.length = 1 then LikeShape.zeroArg else LikeShape.variadic

/-- `returns=st.from_type(thing.__args__[-1])`: the return-value strategy of
a synthesized function resolves the declared return type — the last element
of `Callable.__args__` — through the currently bound registry. -/
def pure_functions_returns_key (typeArgs : List TypeKey) : Option TypeKey :=
  typeArgs.getLast?

/-- Python call compatibility: which argument counts a callable of the
given shape accepts (`lambda: None` accepts zero arguments,
`lambda *args, **kwargs: None` accepts any count). -/
def acceptsArgCount : LikeShape → Nat → Bool
  | LikeShape.zeroArg, n => n == 0
  | LikeShape.variadic, _ => true

/-- The memo table of a function drawn from `st.functions(..., pure=True)`:
hypothesis caches the value drawn for each argument tuple so that repeated
calls agree. -/
abbrev FnCache := List (List PyVal × PyVal)

/-- Cache lookup by argument tuple. -/
def cache_lookup : FnCache → List PyVal → Option PyVal
  | [], _ => none
  | (args, v) :: rest, key => if args = key then some v else cache_lookup rest key

/-- Calling a drawn pure function: return the cached result for these
arguments if present; otherwise draw a fresh value from the return-type
strategy (`draw` picks the index for this draw) and cache it.  `none`
models an empty return strategy, from which no draw can succeed. -/
def call_pure_function (returnsSupport : List PyVal) (draw : Nat → Nat)
    (cache : FnCache) (args : List PyVal) : Option PyVal × FnCache :=
  match cache_lookup cache args with
  | some v => (some v, cache)
  | none =>
    match returnsSupport.get? (draw cache.length) with
    | some v => (some v, (args, v) :: cache)
    | none => (none, cache)

/-- `returns.result.Result`, as `laws.py` sees it. -/
def resultClass : PyClass := { qualname := "Result", module := "returns.result" }

/-- `returns.interfaces.mappable.MappableN`. -/
def mappableNClass : PyClass := { qualname := "MappableN", module := "returns.interfaces.mappable" }

/-- `builtins.object`, the tail of every MRO; not a `returns.` class. -/
def objectClass : PyClass := { qualname := "object", module := "builtins" }

/-- A user-defined container class declared outside the `returns` package. -/
def userBoxClass : PyClass := { qualname := "Box", module := "test_box" }

/-- A `Mappable` interface class used in the spec's `Box` scenario. -/
def mappableClass : PyClass := { qualname := "Mappable", module := "returns.interfaces.mappable" }

/-- A concrete `Result`-like container: MRO with one `returns.` interface
and `object`, all three construction capabilities, one law. -/
def resultInfo : ContainerInfo :=
  { cls := resultClass
    mro := [resultClass, mappableNClass, objectClass]
    hasInit := true
    applicative := true
    resultLike := true
    maybeLike := true
    laws := [(mappableNClass, ["identity"])] }

/-- A user-defined container with zero construction capabilities: not an
`ApplicativeN`, not a `ResultLikeN`, not a `MaybeLikeN`, checked with the
default `use_init=False`; it declares one law under `Mappable`. -/
def zeroCapInfo : ContainerInfo :=
  { cls := userBoxClass
    mro := [userBoxClass, mappableClass, objectClass]
    hasInit := true
    applicative := false
    resultLike := false
    maybeLike := false
    laws := [(mappableClass, ["identity"])] }

/-! ### Helper lemmas about the registry embedding -/

theorem lookupType_map_update (key : TypeKey) (v : StratVal) :
    ∀ (reg : Registry), (lookupType reg key).isSome = true →
      lookupType (reg.map (fun kv => if kv.1 = key then (key, v) else kv)) key = some v := by
  intro reg
  induction reg with
  | nil => intro h; simp [lookupType] at h
  | cons kv rest ih =>
    intro h
    rcases kv with ⟨k, w⟩
    by_cases hk : k = key
    · subst hk
      have hhead : (fun kv => if kv.1 = k then (k, v) else kv) (k, w) = (k, v) := if_pos rfl
      simp only [List.map_cons, hhead]
      rw [lookupType]
      simp
    · simp only [List.map_cons, if_neg hk]
      rw [lookupType, if_neg hk]
      rw [lookupType, if_neg hk] at h
      exact ih h

theorem lookupType_append (key : TypeKey) :
    ∀ (l1 l2 : Registry),
      lookupType (l1 ++ l2) key
        = match lookupType l1 key with
          | some v => some v
          | none => lookupType l2 key := by
  intro l1
  induction l1 with
  | nil => intro l2; simp [lookupType]
  | cons kv rest ih =>
    intro l2
    by_cases hk : kv.1 = key
    · rcases kv with ⟨k, w⟩
      simp only [List.cons_append]
      rw [lookupType, lookupType, if_pos hk, if_pos hk]
    · rcases kv with ⟨k, w⟩
      simp only [List.cons_append]
      rw [lookupType, lookupType, if_neg hk, if_neg hk]
      exact ih l2

theorem lookupType_append_left_none (key : TypeKey) (l1 l2 : Registry)
    (h : lookupType l1 key = none) :
    lookupType (l1 ++ l2) key = lookupType l2 key := by
  rw [lookupType_append key l1 l2, h]

theorem lookupType_register_self (reg : Registry) (key : TypeKey) (v : StratVal) :
    lookupType (register_type_strategy reg key v) key = some v := by
  unfold register_type_strategy
  by_cases h : (lookupType reg key).isSome
  · rw [if_pos h]
    exact lookupType_map_update key v reg h
  · rw [if_neg h]
    have hn : lookupType reg key = none := by
      cases hl : lookupType reg key
      · rfl
      · rw [hl] at h; simp at h
    rw [lookupType_append_left_none key reg [(key, v)] hn]
    simp [lookupType]

theorem lookupType_map_update_ne (key key' : TypeKey) (v : StratVal) (hne : key' ≠ key) :
    ∀ (reg : Registry),
      lookupType (reg.map (fun kv => if kv.1 = key then (key, v) else kv)) key'
        = lookupType reg key' := by
  intro reg
  induction reg with
  | nil => simp [lookupType]
  | cons kv rest ih =>
    by_cases hk : kv.1 = key
    · simp only [List.map_cons, if_pos hk]
      rw [lookupType, if_neg hne.symm]
      rw [lookupType]
      rw [hk, if_neg (fun h => hne h.symm)]
      exact ih
    · simp only [List.map_cons, if_neg hk]
      rw [lookupType, lookupType]
      by_cases hk' : kv.1 = key'
      · simp [hk']
      · rw [if_neg hk', if_neg hk']
        exact ih

theorem lookupType_register_ne (reg : Registry) (key key' : TypeKey) (v : StratVal)
    (hne : key' ≠ key) :
    lookupType (register_type_strategy reg key v) key' = lookupType reg key' := by
  unfold register_type_strategy
  by_cases h : (lookupType reg key).isSome
  · rw [if_pos h]
    exact lookupType_map_update_ne key key' v hne reg
  · rw [if_neg h]
    rw [lookupType_append key' reg [(key, v)]]
    cases hl : lookupType reg key'
    · simp [lookupType, if_neg (Ne.symm hne)]
    · rfl

theorem lookupType_none_keys (key : TypeKey) :
    ∀ (reg : Registry), lookupType reg key = none → ∀ kv ∈ reg, kv.1 ≠ key := by
  intro reg
  induction reg with
  | nil => intro _ kv hkv; cases hkv
  | cons hd rest ih =>
    intro h kv hkv
    rw [lookupType] at h
    by_cases hk : hd.1 = key
    · rw [if_pos hk] at h; cases h
    · rw [if_neg hk] at h
      rcases List.mem_cons.mp hkv with heq | hmem
      · rw [heq]; exact hk
      · exact ih h kv hmem

theorem popType_of_lookup_none (reg : Registry) (key : TypeKey)
    (h : lookupType reg key = none) : popType reg key = reg := by
  unfold popType
  apply List.filter_eq_self.mpr
  intro kv hkv
  exact decide_eq_true (lookupType_none_keys key reg h kv hkv)

theorem popType_register_fresh (reg : Registry) (key : TypeKey) (v : StratVal)
    (h : lookupType reg key = none) :
    popType (register_type_strategy reg key v) key = reg := by
  unfold register_type_strategy
  rw [h]
  simp only [Option.isSome_none, Bool.false_eq_true, if_false]
  unfold popType
  rw [List.filter_append]
  have h1 : List.filter (fun kv => decide (kv.1 ≠ key)) reg = reg :=
    List.filter_eq_self.mpr (fun kv hkv =>
      decide_eq_true (lookupType_none_keys key reg h kv hkv))
  have h2 : List.filter (fun kv => decide (kv.1 ≠ key)) [(key, v)] = [] := by
    simp
  rw [h1, h2, List.append_nil]

/-- The registration loop of `container_strategies`, generalized over the
list of interfaces: a key not on the list keeps its binding. -/
theorem foldl_register_notmem (fval : StratVal) (c : PyClass) :
    ∀ (l : List PyClass) (reg : Registry), c ∉ l →
      lookupType (l.foldl (fun r i => register_type_strategy r (TypeKey.cls i) fval) reg)
          (TypeKey.cls c)
        = lookupType reg (TypeKey.cls c) := by
  intro l
  induction l with
  | nil => intro reg _; rfl
  | cons i rest ih =>
    intro reg hc
    rw [List.foldl_cons]
    rw [ih _ (fun hmem => hc (List.mem_cons_of_mem i hmem))]
    apply lookupType_register_ne
    intro hkey
    apply hc
    have : c = i := by
      cases hkey
      rfl
    rw [this]
    exact List.mem_cons_self i rest

/-- A key already bound to the registered value keeps that value through
the whole registration loop. -/
theorem foldl_register_keep (fval : StratVal) (c : PyClass) :
    ∀ (l : List PyClass) (reg : Registry),
      lookupType reg (TypeKey.cls c) = some fval →
      lookupType (l.foldl (fun r i => register_type_strategy r (TypeKey.cls i) fval) reg)
          (TypeKey.cls c)
        = some fval := by
  intro l
  induction l with
  | nil => intro reg h; exact h
  | cons i rest ih =>
    intro reg h
    rw [List.foldl_cons]
    apply ih
    by_cases hic : TypeKey.cls c = TypeKey.cls i
    · rw [hic, lookupType_register_self]
    · rw [lookupType_register_ne reg (TypeKey.cls i) (TypeKey.cls c) fval hic]
      exact h

/-- A key on the interface list is bound to the factory after the loop. -/
theorem foldl_register_mem (fval : StratVal) (c : PyClass) :
    ∀ (l : List PyClass) (reg : Registry), c ∈ l →
      lookupType (l.foldl (fun r i => register_type_strategy r (TypeKey.cls i) fval) reg)
          (TypeKey.cls c)
        = some fval := by
  intro l
  induction l with
  | nil => intro reg h; cases h
  | cons i rest ih =>
    intro reg hc
    rw [List.foldl_cons]
    rcases List.mem_cons.mp hc with heq | hmem
    · subst heq
      apply foldl_register_keep
      exact lookupType_register_self reg (TypeKey.cls c) fval
    · exact ih _ hmem

/-- Accumulating appends of singletons is mapping. -/
theorem foldl_append_singleton {α β : Type} (f : α → β) :
    ∀ (l : List α) (acc : List β),
      l.foldl (fun a x => a ++ [f x]) acc = acc ++ l.map f := by
  intro l
  induction l with
  | nil => intro acc; simp
  | cons x xs ih => intro acc; simp [ih, List.append_assoc]

/-- The nested publication loop of `check_all_laws`, generalized over the
accumulator. -/
theorem check_all_laws_foldl (cls : PyClass) :
    ∀ (lawsList : List (PyClass × List String)) (acc : List String),
      lawsList.foldl
          (fun acc p => p.2.foldl
            (fun acc2 lawName => acc2 ++ [law_test_case_name cls p.1 lawName]) acc)
          acc
        = acc ++ lawsList.flatMap (fun p => p.2.map (law_test_case_name cls p.1)) := by
  intro lawsList
  induction lawsList with
  | nil => intro acc; simp
  | cons p rest ih =>
    intro acc
    rw [List.foldl_cons, foldl_append_singleton, ih, List.flatMap_cons, List.append_assoc]

theorem check_all_laws_eq_flatMap (ct : ContainerInfo) :
    check_all_laws ct
      = ct.laws.flatMap (fun p => p.2.map (law_test_case_name ct.cls p.1)) := by
  unfold check_all_laws
  rw [check_all_laws_foldl, List.nil_append]

theorem check_all_laws_length (ct : ContainerInfo) :
    (check_all_laws ct).length = (ct.laws.map (fun p => p.2.length)).sum := by
  rw [check_all_laws_eq_flatMap, List.length_flatMap]
  simp only [Function.comp_def, List.length_map]

/-- A `maybe_register_container` scope whose container is already bound is
transparent: it performs no registration and no removal, on every exit
path. -/
theorem maybe_register_container_run_present (ct : PyClass) (use_init : Bool)
    (body : ScopeBody) (reg : Registry)
    (h : (lookupType reg (TypeKey.cls ct)).isSome = true) :
    maybe_register_container_run ct use_init body reg = body reg := by
  unfold maybe_register_container_run maybe_register_container_enter
  have hn : (lookupType reg (TypeKey.cls ct)).isNone = false := by
    rcases Option.isSome_iff_exists.mp h with ⟨v, hv⟩
    rw [hv]
    rfl
  rw [hn]
  simp only [Bool.false_eq_true, if_false]
  rcases hb : body reg with ⟨reg2, res⟩
  cases res <;> simp

/-! ### Claim theorems -/

/-- Claim C1 (code bug demonstration).  The claim and the spec require the
process-wide type lookup table to return to its pre-scope binding set after
every scope opened by the registry manager, for normal exits AND for exits
caused by an exception in the scope body.  The source context managers run
their cleanup in straight-line code after `yield` with no `try`/`finally`,
so a failing body skips the cleanup entirely.  At the concrete inputs below,
each of the four scopes (`container_strategies`, `maybe_register_container`,
`pure_functions`, `type_vars`) leaves the table different from its entry
state on a failing exit, while the same `container_strategies` scope does
restore the table on a normal exit. -/
theorem C1_registry_not_restored_on_failing_exit :
    (container_strategies_run resultInfo false (fun r => (r, BodyResult.exn)) []).1 ≠ [] ∧
    (maybe_register_container_run userBoxClass false (fun r => (r, BodyResult.exn)) []).1
      ≠ [] ∧
    (pure_functions_run (fun r => (r, BodyResult.exn))
        [(TypeKey.callable, StratVal.engineDefault 0)]).1
      ≠ [(TypeKey.callable, StratVal.engineDefault 0)] ∧
    (type_vars_run (fun r => (r, BodyResult.exn))
        [(TypeKey.typeVar, StratVal.engineDefault 1)]).1
      ≠ [(TypeKey.typeVar, StratVal.engineDefault 1)] ∧
    (container_strategies_run resultInfo false (fun r => (r, BodyResult.ok)) []).1 = [] := by
  decide

/-- Claim C2 (counterexample).  The claim says a container with zero
construction capabilities makes generator synthesis fail at
registration/build time, before any test artifact is published.  In the
code, `_create_container_factory` only assembles its strategy list inside
the lazily-invoked `factory` closure, and `check_all_laws` publishes every
artifact without ever invoking it: for the concrete zero-capability
container, the factory's union is empty (so the failure can only surface at
draw time) and yet an artifact is published. -/
theorem C2_counterexample :
    create_container_factory zeroCapInfo false = [] ∧
    check_all_laws zeroCapInfo = ["test_box_mappable_identity"] := by
  decide

/-- Claim C2 (amended).  For a container with zero construction
capabilities (not `ApplicativeN`, not `ResultLikeN`, not `MaybeLikeN`,
checked with the default `use_init=False`), the container factory builds an
empty `one_of` union, every draw from which fails — the failure surfaces at
check-execution (draw) time — while `check_all_laws` still publishes one
artifact per law of the capability chain. -/
theorem C2_amended_failure_at_draw_time (ct : ContainerInfo)
    (h1 : ct.applicative = false) (h2 : ct.resultLike = false)
    (h3 : ct.maybeLike = false) :
    create_container_factory ct false = [] ∧
    (∀ choice, one_of_draw (create_container_factory ct false) choice = none) ∧
    (check_all_laws ct).length = (ct.laws.map (fun p => p.2.length)).sum := by
  have hempty : create_container_factory ct false = [] := by
    unfold create_container_factory
    rw [h1, h2, h3]
    simp
  refine ⟨hempty, ?_, check_all_laws_length ct⟩
  intro choice
  rw [hempty]
  rfl

/-- Witness for the amended C2 at the concrete zero-capability container. -/
theorem C2_witness :
    (zeroCapInfo.applicative = false ∧ zeroCapInfo.resultLike = false ∧
      zeroCapInfo.maybeLike = false) ∧
    create_container_factory zeroCapInfo false = [] ∧
    one_of_draw (create_container_factory zeroCapInfo false) 0 = none ∧
    (check_all_laws zeroCapInfo).length
      = (zeroCapInfo.laws.map (fun p => p.2.length)).sum :=
  ⟨⟨rfl, rfl, rfl⟩,
    (C2_amended_failure_at_draw_time zeroCapInfo rfl rfl rfl).1,
    (C2_amended_failure_at_draw_time zeroCapInfo rfl rfl rfl).2.1 0,
    (C2_amended_failure_at_draw_time zeroCapInfo rfl rfl rfl).2.2⟩

/-- Claim C3.  `check_all_laws` publishes exactly one artifact per
(container, interface, law) triple: the published sequence is the
concatenation, over the interfaces of `container_type.laws()`, of one name
per law, so its length is the total number of laws across the capability
chain (not the number of interfaces). -/
theorem C3_one_artifact_per_law (ct : ContainerInfo) :
    (check_all_laws ct).length = (ct.laws.map (fun p => p.2.length)).sum ∧
    check_all_laws ct
      = ct.laws.flatMap (fun p => p.2.map (law_test_case_name ct.cls p.1)) :=
  ⟨check_all_laws_length ct, check_all_laws_eq_flatMap ct⟩

/-- Claim C4 (counterexample).  The claim says every component of the
derived artifact name is lower-cased.  The code lower-cases
`container_type.__qualname__` and `interface.__qualname__` but interpolates
`law.name` verbatim: a law named `Identity` produces
`test_box_mappable_Identity`, not the fully lower-cased name. -/
theorem C4_counterexample :
    law_test_case_name userBoxClass mappableClass "Identity"
        = "test_box_mappable_Identity" ∧
    law_test_case_name userBoxClass mappableClass "Identity"
        ≠ "test_box_mappable_identity" := by
  decide

/-- Claim C4 (amended).  The artifact name is deterministically derived
from the triple as `test_<container>_<interface>_<law_name>` with the
container and interface components lower-cased and the law name used
verbatim: two classes agreeing up to case yield the same name, and the
`Box`/`Mappable`/`identity` example yields `test_box_mappable_identity`. -/
theorem C4_amended_name_derivation (ct ct2 interface interface2 : PyClass)
    (lawName : String)
    (h1 : pyLower ct.qualname = pyLower ct2.qualname)
    (h2 : pyLower interface.qualname = pyLower interface2.qualname) :
    law_test_case_name ct interface lawName = law_test_case_name ct2 interface2 lawName ∧
    law_test_case_name userBoxClass mappableClass "identity"
      = "test_box_mappable_identity" := by
  constructor
  · unfold law_test_case_name
    rw [h1, h2]
  · decide

/-- Witness for the amended C4: `BOX` and `Box` agree up to case and get
the same artifact name. -/
theorem C4_witness :
    pyLower (PyClass.qualname { qualname := "BOX", module := "test_box" })
        = pyLower userBoxClass.qualname ∧
    pyLower mappableClass.qualname = pyLower mappableClass.qualname ∧
    law_test_case_name { qualname := "BOX", module := "test_box" } mappableClass "identity"
        = law_test_case_name userBoxClass mappableClass "identity" ∧
    law_test_case_name userBoxClass mappableClass "identity"
        = "test_box_mappable_identity" :=
  ⟨by decide, rfl,
    (C4_amended_name_derivation { qualname := "BOX", module := "test_box" } userBoxClass
      mappableClass mappableClass "identity" (by decide) rfl).1,
    (C4_amended_name_derivation { qualname := "BOX", module := "test_box" } userBoxClass
      mappableClass mappableClass "identity" (by decide) rfl).2⟩

/-- Claim C5.  Every value in the support of the strategy built by the
`type_vars` factory is self-equal under Python `==` (the filter excludes
non-reflexive values such as `nan`), and the factory does not otherwise
narrow the default engine resolution: its support is exactly the default
support restricted to self-equal values. -/
theorem C5_type_var_self_equality (support : List PyVal) (v : PyVal) :
    (v ∈ type_vars_factory support → pyEq v v = true) ∧
    (v ∈ type_vars_factory support ↔ v ∈ support ∧ pyEq v v = true) := by
  constructor
  · intro hv
    unfold type_vars_factory at hv
    exact (List.mem_filter.mp hv).2
  · unfold type_vars_factory
    rw [List.mem_filter]
    simp

/-- Witness for C5: with a default resolution containing `3` and `nan`,
the drawn value `3` is self-equal; `nan` is filtered out. -/
theorem C5_witness :
    PyVal.intVal 3 ∈ type_vars_factory [PyVal.intVal 3, PyVal.nan] ∧
    pyEq (PyVal.intVal 3) (PyVal.intVal 3) = true ∧
    PyVal.nan ∉ type_vars_factory [PyVal.intVal 3, PyVal.nan] :=
  ⟨by decide, (C5_type_var_self_equality [PyVal.intVal 3, PyVal.nan] (PyVal.intVal 3)).1
    (by decide), by decide⟩

/-- Claim C8.  The strategy union assembled by `_create_container_factory`
contains the raw-constructor sub-strategy only when `use_init` is set (in
particular, only when `use_init` is set or no safer capability exists), and
contains exactly one sub-strategy per supported construction capability:
`from_value` iff the container is `ApplicativeN`, `from_failure` iff
`ResultLikeN`, `from_optional` iff `MaybeLikeN`, and the raw constructor
iff `use_init` and a truthy `__init__`. -/
theorem C8_raw_constructor_invariant (ct : ContainerInfo) (use_init : Bool) :
    (SubStrategy.buildsInit ∈ create_container_factory ct use_init →
      use_init = true ∨ (ct.applicative = false ∧ ct.resultLike = false ∧
        ct.maybeLike = false)) ∧
    (SubStrategy.buildsInit ∈ create_container_factory ct use_init ↔
      use_init = true ∧ ct.hasInit = true) ∧
    (SubStrategy.buildsFromValue ∈ create_container_factory ct use_init ↔
      ct.applicative = true) ∧
    (SubStrategy.buildsFromFailure ∈ create_container_factory ct use_init ↔
      ct.resultLike = true) ∧
    (SubStrategy.buildsFromOptional ∈ create_container_factory ct use_init ↔
      ct.maybeLike = true) := by
  rcases ct with ⟨cls, mro, hasInit, ap, rl, ml, lawsList⟩
  cases hasInit <;> cases ap <;> cases rl <;> cases ml <;> cases use_init <;>
    simp [create_container_factory]

/-- Witness for C8 at a container with `use_init` set. -/
theorem C8_witness :
    SubStrategy.buildsInit ∈ create_container_factory zeroCapInfo true ∧
    (true = true ∨ (zeroCapInfo.applicative = false ∧ zeroCapInfo.resultLike = false ∧
      zeroCapInfo.maybeLike = false)) :=
  ⟨by decide, (C8_raw_constructor_invariant zeroCapInfo true).1 (by decide)⟩

/-- Claim C9.  The `factory` closure built by `_run_law` — the body of
every generated check — performs the interpreter version test itself on
every execution: whenever `sys.version_info[:2] < (3, 7)`, it raises the
fatal `RuntimeError` and returns the registry unchanged, i.e. before
entering any of the `type_vars` / `pure_functions` / `container_strategies`
scopes, whatever the current registry state. -/
theorem C9_version_guard_before_scopes (pyversion : Nat × Nat) (ct : ContainerInfo)
    (use_init : Bool) (draw : ScopeBody) (reg : Registry)
    (h : pyversion_lt_3_7 pyversion = true) :
    run_law_factory pyversion ct use_init draw reg
      = (reg, Except.error py36_error_message) := by
  unfold run_law_factory
  rw [h]
  simp

/-- Witness for C9 at interpreter version (3, 6). -/
theorem C9_witness :
    pyversion_lt_3_7 (3, 6) = true ∧
    run_law_factory (3, 6) resultInfo false (fun r => (r, BodyResult.ok)) []
      = ([], Except.error py36_error_message) :=
  ⟨by decide,
    C9_version_guard_before_scopes (3, 6) resultInfo false (fun r => (r, BodyResult.ok)) []
      (by decide)⟩

/-- Claim C6.  Functions drawn through the `pure_functions` factory are
pure: `st.functions(..., pure=True)` memoizes the value drawn for each
argument tuple, so a second invocation of a fixed drawn function with
identical arguments returns the identical result and only reads the memo
table.  The synthesized callable accepts the declared parameter count of
the `Callable` type (a zero-argument lambda for `Callable[[], R]`, a
variadic lambda otherwise), and every freshly drawn result comes from the
return-type strategy `st.from_type(thing.__args__[-1])`. -/
theorem C6_pure_function_synthesis (typeArgs : List TypeKey)
    (returnsSupport : List PyVal) (draw : Nat → Nat) (cache : FnCache)
    (args : List PyVal) (v : PyVal)
    (h : (call_pure_function returnsSupport draw cache args).1 = some v) :
    (call_pure_function returnsSupport draw
        (call_pure_function returnsSupport draw cache args).2 args).1 = some v ∧
    acceptsArgCount (pure_functions_like typeArgs) (typeArgs.length - 1) = true ∧
    (cache_lookup cache args = none → v ∈ returnsSupport) := by
  refine ⟨?_, ?_, ?_⟩
  · cases hc : cache_lookup cache args with
    | some w =>
      have h1 : call_pure_function returnsSupport draw cache args = (some w, cache) := by
        unfold call_pure_function
        rw [hc]
      rw [h1] at h ⊢
      show (call_pure_function returnsSupport draw cache args).1 = some v
      rw [h1]
      exact h
    | none =>
      cases hg : returnsSupport.get? (draw cache.length) with
      | none =>
        have h1 : call_pure_function returnsSupport draw cache args = (none, cache) := by
          unfold call_pure_function
          rw [hc, hg]
        rw [h1] at h
        simp at h
      | some u =>
        have h1 : call_pure_function returnsSupport draw cache args
            = (some u, (args, u) :: cache) := by
          unfold call_pure_function
          rw [hc, hg]
        rw [h1] at h ⊢
        show (call_pure_function returnsSupport draw ((args, u) :: cache) args).1 = some v
        have h2 : cache_lookup ((args, u) :: cache) args = some u := by
          unfold cache_lookup
          rw [if_pos rfl]
        unfold call_pure_function
        rw [h2]
        exact h
  · unfold pure_functions_like
    by_cases hl : typeArgs.length = 1
    · rw [if_pos hl, hl]
      rfl
    · rw [if_neg hl]
      rfl
  · intro hc
    cases hg : returnsSupport.get? (draw cache.length) with
    | none =>
      have h1 : call_pure_function returnsSupport draw cache args = (none, cache) := by
        unfold call_pure_function
        rw [hc, hg]
      rw [h1] at h
      simp at h
    | some u =>
      have h1 : call_pure_function returnsSupport draw cache args
          = (some u, (args, u) :: cache) := by
        unfold call_pure_function
        rw [hc, hg]
      rw [h1] at h
      simp at h
      rw [← h]
      exact List.get?_mem hg

/-- Witness for C6: a drawn function over return support `[0]` called
twice on the same argument tuple returns the same value, which comes from
the return support. -/
theorem C6_witness :
    (call_pure_function [PyVal.intVal 0] (fun n => n) [] [PyVal.intVal 1]).1
        = some (PyVal.intVal 0) ∧
    ((call_pure_function [PyVal.intVal 0] (fun n => n)
        (call_pure_function [PyVal.intVal 0] (fun n => n) [] [PyVal.intVal 1]).2
        [PyVal.intVal 1]).1 = some (PyVal.intVal 0) ∧
    acceptsArgCount (pure_functions_like [TypeKey.callable, TypeKey.typeVar])
        ([TypeKey.callable, TypeKey.typeVar].length - 1) = true ∧
    (cache_lookup [] [PyVal.intVal 1] = none → PyVal.intVal 0 ∈ [PyVal.intVal 0])) :=
  ⟨by decide,
    C6_pure_function_synthesis [TypeKey.callable, TypeKey.typeVar] [PyVal.intVal 0]
      (fun n => n) [] [PyVal.intVal 1] (PyVal.intVal 0) (by decide)⟩

/-- Claim C7.  The `maybe_register_container` scope is idempotent under
nesting: when the container type is already bound at entry the scope is
fully transparent (it records that it did not bind, changes nothing and
removes nothing, leaving the pre-existing binding in place); nesting the
scope twice around any body behaves exactly like opening it once; and the
recorded flag is precisely whether the container was unknown at entry. -/
theorem C7_default_container_scope (ct : PyClass) (use_init : Bool) (body : ScopeBody)
    (reg : Registry) :
    ((lookupType reg (TypeKey.cls ct)).isSome = true →
      maybe_register_container_run ct use_init body reg = body reg) ∧
    maybe_register_container_run ct use_init
        (maybe_register_container_run ct use_init body) reg
      = maybe_register_container_run ct use_init body reg ∧
    (maybe_register_container_enter ct use_init reg).2
      = (lookupType reg (TypeKey.cls ct)).isNone := by
  refine ⟨maybe_register_container_run_present ct use_init body reg, ?_, ?_⟩
  · by_cases hp : (lookupType reg (TypeKey.cls ct)).isSome = true
    · rw [maybe_register_container_run_present ct use_init
        (maybe_register_container_run ct use_init body) reg hp,
        maybe_register_container_run_present ct use_init body reg hp]
    · have hnone : lookupType reg (TypeKey.cls ct) = none := by
        cases hl : lookupType reg (TypeKey.cls ct)
        · rfl
        · rw [hl] at hp
          simp at hp
      have hsome : (lookupType
          (register_type_strategy reg (TypeKey.cls ct)
            (StratVal.containerFactory ct use_init)) (TypeKey.cls ct)).isSome = true := by
        rw [lookupType_register_self]
        rfl
      conv_lhs =>
        rw [maybe_register_container_run]
        rw [maybe_register_container_enter]
        rw [hnone]
      conv_rhs =>
        rw [maybe_register_container_run]
        rw [maybe_register_container_enter]
        rw [hnone]
      simp only [Option.isNone_none, if_true]
      rw [maybe_register_container_run_present ct use_init body _ hsome]
  · unfold maybe_register_container_enter
    cases hl : lookupType reg (TypeKey.cls ct)
    · simp
    · simp

/-- Witness for C7 at a registry where the container is already bound. -/
theorem C7_witness :
    (lookupType [(TypeKey.cls userBoxClass, StratVal.engineDefault 5)]
        (TypeKey.cls userBoxClass)).isSome = true ∧
    maybe_register_container_run userBoxClass false (fun r => (r, BodyResult.ok))
        [(TypeKey.cls userBoxClass, StratVal.engineDefault 5)]
      = (fun r => (r, BodyResult.ok))
          [(TypeKey.cls userBoxClass, StratVal.engineDefault 5)] ∧
    maybe_register_container_run userBoxClass false
        (maybe_register_container_run userBoxClass false (fun r => (r, BodyResult.ok)))
        [(TypeKey.cls userBoxClass, StratVal.engineDefault 5)]
      = maybe_register_container_run userBoxClass false (fun r => (r, BodyResult.ok))
          [(TypeKey.cls userBoxClass, StratVal.engineDefault 5)] :=
  ⟨by decide,
    (C7_default_container_scope userBoxClass false (fun r => (r, BodyResult.ok))
      [(TypeKey.cls userBoxClass, StratVal.engineDefault 5)]).1 (by decide),
    (C7_default_container_scope userBoxClass false (fun r => (r, BodyResult.ok))
      [(TypeKey.cls userBoxClass, StratVal.engineDefault 5)]).2.1⟩

/-- Claim C10.  The interfaces bound by `container_strategies` are exactly
the classes of the container's MRO whose `__module__` starts with
`returns.`: membership in the bound set is equivalent to that condition; a
class whose module does not start with `returns.` keeps whatever binding it
had through the interface-registration pass (in particular a user-defined
container outside the `returns` package is never bound by this pass); and
every `returns.`-defined class in the MRO ends up bound to the container
factory. -/
theorem C10_mro_returns_module_binding (ct : ContainerInfo) (use_init : Bool)
    (reg : Registry) (c : PyClass) :
    (c ∈ our_interfaces ct ↔ c ∈ ct.mro ∧ startswith c.module "returns." = true) ∧
    (startswith c.module "returns." = false →
      lookupType (register_interfaces ct use_init reg) (TypeKey.cls c)
        = lookupType reg (TypeKey.cls c)) ∧
    (c ∈ ct.mro → startswith c.module "returns." = true →
      lookupType (register_interfaces ct use_init reg) (TypeKey.cls c)
        = some (StratVal.containerFactory ct.cls use_init)) := by
  refine ⟨?_, ?_, ?_⟩
  · unfold our_interfaces
    exact List.mem_filter
  · intro hmod
    unfold register_interfaces
    apply foldl_register_notmem
    intro hmem
    have hpos := (List.mem_filter.mp hmem).2
    rw [hmod] at hpos
    cases hpos
  · intro hmro hmod
    unfold register_interfaces
    apply foldl_register_mem
    unfold our_interfaces
    exact List.mem_filter.mpr ⟨hmro, hmod⟩

/-- Witness for C10: for the concrete `Result` container, the
`returns.`-defined interface in the MRO gets bound to the container
factory, while `builtins.object` stays unbound. -/
theorem C10_witness :
    (mappableNClass ∈ resultInfo.mro ∧
      startswith mappableNClass.module "returns." = true) ∧
    lookupType (register_interfaces resultInfo false []) (TypeKey.cls mappableNClass)
      = some (StratVal.containerFactory resultInfo.cls false) ∧
    startswith objectClass.module "returns." = false ∧
    lookupType (register_interfaces resultInfo false []) (TypeKey.cls objectClass)
      = lookupType [] (TypeKey.cls objectClass) :=
  ⟨⟨by decide, by decide⟩,
    (C10_mro_returns_module_binding resultInfo false [] mappableNClass).2.2
      (by decide) (by decide),
    by decide,
    (C10_mro_returns_module_binding resultInfo false [] objectClass).2.1 (by decide)⟩

end LawsPy
